import Mathlib

/-!
# Search-index pagination adapter

A shallow embedding of `paginations/adapter/elasticsearch.go`: the adapter state, the two
operations `Nums` and `Slice`, and the pieces of the search client and of the JSON decoder
that the two operations call.  Mutable state (the bound query, the destination slice) is
passed explicitly; the backend is a function from the request that is sent to the response
or error that comes back.
-/

set_option autoImplicit false

namespace Skeleton

/-! ## Values, payloads and hits -/

/-- Dynamic value stored in a Go `interface{}` by `json.Unmarshal`: nil, bool, float64
(every finite float64 is a rational), string, `[]interface{}` or `map[string]interface{}`. -/
inductive Value where
  | nil
  | bool (b : Bool)
  | float64 (q : ℚ)
  | string (s : String)
  | array (xs : List Value)
  | object (kvs : List (String × Value))

/-- Raw bytes of a hit's `_source`, the Go type `json.RawMessage`. -/
abbrev RawMessage := String

/-- The effect of the call `json.Unmarshal(src, &record)` on its target `record` of type
`interface{}`: `some v` when the call replaces the target by `v`, as it does for every payload
it decodes without error; `none` when it leaves the target untouched, as it does for a payload
that is not JSON (the syntax check runs before anything is stored).  `Slice` ignores the
returned error, so only this effect is modelled: a payload on which the call stores a value
and still returns an error (a number outside the float64 range inside an object or array)
counts as `some`. -/
abbrev Unmarshal := RawMessage → Option Value

/-- One search hit; `Slice` reads only its `Source`. -/
structure SearchHit where
  Source : RawMessage

/-- Total-hit count reported by the engine. -/
structure TotalHits where
  Value : Int
  Relation : String

/-- The `hits` object of a search response. -/
structure SearchHits where
  TotalHits : Option TotalHits
  Hits : List SearchHit

/-- A search response; `Hits` is a pointer and may be nil. -/
structure SearchResult where
  Hits : Option SearchHits

/-- The accessor `(*SearchResult).TotalHits` of the search client: the reported value, and 0
when the hits object or its total is absent. -/
def SearchResult.TotalHits (r : SearchResult) : Int :=
  match r.Hits with
  | some hits =>
    match hits.TotalHits with
    | some total => total.Value
    | none => 0
  | none => 0

/-! ## Queries -/

/-- The range query of the search client (`elastic.RangeQuery` of olivere/elastic v7, which
the source imports): a field name, two optional bounds and the two flags that say whether
each bound itself is included; the flags are sent as `include_lower` and `include_upper`. -/
structure RangeQuery where
  name : String
  from_ : Option Int
  to_ : Option Int
  includeLower : Bool
  includeUpper : Bool
  deriving DecidableEq, Repr

/-- The constructor `elastic.NewRangeQuery(name)`: no bounds, and both include flags true. -/
def NewRangeQuery (name : String) : RangeQuery :=
  { name := name, from_ := none, to_ := none, includeLower := true, includeUpper := true }

/-- The builder `From`: sets the lower bound and leaves the flags alone. -/
def RangeQuery.From (q : RangeQuery) (v : Int) : RangeQuery :=
  { q with from_ := some v }

/-- The builder `To`: sets the upper bound and leaves the flags alone. -/
def RangeQuery.To (q : RangeQuery) (v : Int) : RangeQuery :=
  { q with to_ := some v }

/-- A query clause: a range query, or any other query of the client, named by its source. -/
inductive Query where
  | range (q : RangeQuery)
  | other (source : String)
  deriving DecidableEq, Repr

/-- The boolean query of the search client, with its four clause lists. -/
structure BoolQuery where
  mustClauses : List Query
  mustNotClauses : List Query
  filterClauses : List Query
  shouldClauses : List Query
  deriving DecidableEq, Repr

/-- The constructor `elastic.NewBoolQuery()`: no clause at all, matches every document. -/
def NewBoolQuery : BoolQuery :=
  { mustClauses := [], mustNotClauses := [], filterClauses := [], shouldClauses := [] }

/-- The builder `Must`: appends the given clauses to the must list, in place. -/
def BoolQuery.Must (q : BoolQuery) (queries : List Query) : BoolQuery :=
  { q with mustClauses := q.mustClauses ++ queries }

/-- Whether a field value lies in the interval a range query describes. -/
def RangeQuery.contains (q : RangeQuery) (c : Int) : Bool :=
  (match q.from_ with
    | none => true
    | some lo => if q.includeLower then decide (lo ≤ c) else decide (lo < c)) &&
  (match q.to_ with
    | none => true
    | some hi => if q.includeUpper then decide (c ≤ hi) else decide (c < hi))

/-! ## The backend -/

/-- What one call `client.Search().Index(i).IgnoreUnavailable(b).Query(q).Do(ctx)` sends. -/
structure SearchRequest where
  index : String
  ignoreUnavailable : Bool
  query : BoolQuery
  deriving DecidableEq, Repr

/-- How the call `Do` of the search client ends: it returns a response, it returns an
error, or the client itself panics without an answer (a nil client or a nil context). -/
inductive SearchOutcome where
  | ok (result : SearchResult)
  | error (msg : String)
  | panicked (msg : String)

/-- The client, the context and the server behind them, seen through `Do`: how the call
ends for each request. -/
abbrev Backend := SearchRequest → SearchOutcome

/-! ## The adapter -/

/-- The adapter state that the two operations read: the index name and the bound query, a
`*elastic.BoolQuery` that may be nil (`none`).  The client and the context are the `Backend`
argument of each operation. -/
structure ElasticsearchAdapter where
  index : String
  query : Option BoolQuery
  deriving DecidableEq, Repr

/-- The constructor `NewElasticsearchAdapter`: stores its arguments. -/
def NewElasticsearchAdapter (index : String) (query : Option BoolQuery) : ElasticsearchAdapter :=
  { index := index, query := query }

/-- How `Nums` ends: it returns its two values (`none` is the nil error), or it panics. -/
inductive NumsOutcome where
  | returned (total : Int) (err : Option String)
  | panicked (msg : String)
  deriving DecidableEq, Repr

/-- What `Nums` leaves behind: the request it handed to the client (none when the call
panicked before there was one), how it ended and the lines it logged. -/
structure NumsResult where
  request : Option SearchRequest
  outcome : NumsOutcome
  logged : List String

/-- `Nums` (lines 30-38): search with the bound query; on error log it and return `(0, nil)`,
otherwise return the total-hit count of the response and nil.  A nil query is dereferenced
when the request body is built, before anything is sent. -/
def ElasticsearchAdapter.Nums (backend : Backend) (es : ElasticsearchAdapter) : NumsResult :=
  match es.query with
  | none => { request := none, outcome := .panicked "nil pointer dereference", logged := [] }
  | some query =>
    let request : SearchRequest :=
      { index := es.index, ignoreUnavailable := true, query := query }
    match backend request with
    | .panicked msg => { request := some request, outcome := .panicked msg, logged := [] }
    | .error err => { request := some request, outcome := .returned 0 none, logged := [err] }
    | .ok result =>
      { request := some request, outcome := .returned result.TotalHits none, logged := [] }

/-- The `data interface{}` argument of `Slice`: a `*[]interface{}` (nil, or pointing to a
slice with the given elements), or a value of any other dynamic type. -/
inductive Data where
  | slicePtr (target : Option (List Value))
  | other (typeName : String)

/-- Number of elements of the destination slice (0 when there is no slice). -/
def Data.length : Data → Nat
  | .slicePtr (some xs) => xs.length
  | .slicePtr none => 0
  | .other _ => 0

/-- How a call ends: it returns its `error` value (`none` is nil), or it panics. -/
inductive Outcome where
  | returned (err : Option String)
  | panicked (msg : String)
  deriving DecidableEq, Repr

/-- The loop of lines 50-55.  `record` is declared once before the loop; each hit is decoded
into it with the error of `json.Unmarshal` ignored, and `record` is appended in every
iteration. -/
def appendHits (unmarshal : Unmarshal) : List SearchHit → Value → List Value → List Value
  | [], _, records => records
  | hit :: rest, record, records =>
    let record := match unmarshal hit.Source with
      | some v => v
      | none => record
    appendHits unmarshal rest record (records ++ [record])

/-- The clause line 41 builds: `elastic.NewRangeQuery("Counter").From(offset).To(length)`. -/
def rangeClause (offset length : Int) : Query :=
  Query.range (((NewRangeQuery "Counter").From offset).To length)

/-- What `Slice` leaves behind: the adapter with its mutated query, the request it handed to
the client (none when the call panicked before there was one), the destination, how the call
ended and the lines it logged. -/
structure SliceResult where
  adapter : ElasticsearchAdapter
  request : Option SearchRequest
  data : Data
  outcome : Outcome
  logged : List String

/-- `Slice` (lines 40-60): add the range clause on "Counter" to the bound query (panic when
the query is nil, with nothing sent), search, and on error log it and return nil.  Otherwise
assert the destination type (panic on another type), read the hit list (panic when the hits
object is nil), run the loop and write the slice back through the pointer (panic when the
pointer is nil), and return nil. -/
def ElasticsearchAdapter.Slice (unmarshal : Unmarshal) (backend : Backend)
    (es : ElasticsearchAdapter) (offset length : Int) (data : Data) : SliceResult :=
  match es.query with
  | none =>
    { adapter := es, request := none, data := data,
      outcome := .panicked "nil pointer dereference", logged := [] }
  | some query =>
    let query : BoolQuery := query.Must [rangeClause offset length]
    let es : ElasticsearchAdapter := { index := es.index, query := some query }
    let request : SearchRequest :=
      { index := es.index, ignoreUnavailable := true, query := query }
    match backend request with
    | .panicked msg =>
      { adapter := es, request := some request, data := data, outcome := .panicked msg,
        logged := [] }
    | .error err =>
      { adapter := es, request := some request, data := data, outcome := .returned none,
        logged := [err] }
    | .ok result =>
      match data with
      | .other _ =>
        { adapter := es, request := some request, data := data,
          outcome := .panicked "interface conversion", logged := [] }
      | .slicePtr target =>
        match result.Hits with
        | none =>
          { adapter := es, request := some request, data := data,
            outcome := .panicked "nil pointer dereference", logged := [] }
        | some hits =>
          match target with
          | none =>
            { adapter := es, request := some request, data := data,
              outcome := .panicked "nil pointer dereference", logged := [] }
          | some records =>
            { adapter := es, request := some request,
              data := .slicePtr (some (appendHits unmarshal hits.Hits Value.nil records)),
              outcome := .returned none, logged := [] }

/-! ## Specification vocabulary -/

/-- Number of hits a response carries (0 when the hits object is nil). -/
def SearchResult.hitCount (r : SearchResult) : Nat :=
  match r.Hits with
  | some hits => hits.Hits.length
  | none => 0

/-- The destination is a pointer that points to a slice (a nil pointer points to nothing). -/
def Data.pointsToSlice : Data → Bool
  | .slicePtr (some _) => true
  | .slicePtr none => false
  | .other _ => false

/-- The entries the loop produces for a list of hits, starting from a given `record`: one
per hit, the decoding when there is one and the value carried so far otherwise. -/
def carriedEntries (unmarshal : Unmarshal) : List SearchHit → Value → List Value
  | [], _ => []
  | hit :: rest, record =>
    let record := (unmarshal hit.Source).getD record
    record :: carriedEntries unmarshal rest record

/-! ## A sample index

A backend that holds documents with a `Counter` field and answers a search with exactly the
documents that satisfy the query it is sent, in stored order. -/

/-- A stored document: its `Counter` field and its source payload. -/
structure Doc where
  Counter : Int
  Source : RawMessage

/-- Whether a document satisfies one clause; `sem` decides the clauses that are not range
queries.  A range on another field than "Counter" finds no value to compare. -/
def Query.satisfiedBy (sem : String → Doc → Bool) : Query → Doc → Bool
  | .range q, d => q.name == "Counter" && q.contains d.Counter
  | .other source, d => sem source d

/-- Whether a document satisfies a boolean query: every must and filter clause, no must-not
clause, and one should clause when the query has should clauses only. -/
def BoolQuery.satisfiedBy (sem : String → Doc → Bool) (q : BoolQuery) (d : Doc) : Bool :=
  q.mustClauses.all (fun c => c.satisfiedBy sem d) &&
  q.filterClauses.all (fun c => c.satisfiedBy sem d) &&
  !(q.mustNotClauses.any (fun c => c.satisfiedBy sem d)) &&
  (q.shouldClauses.isEmpty || !(q.mustClauses.isEmpty && q.filterClauses.isEmpty) ||
    q.shouldClauses.any (fun c => c.satisfiedBy sem d))

/-- The backend over a list of documents: always succeeds, and returns exactly the documents
that satisfy the query, with their number as total. -/
def indexBackend (sem : String → Doc → Bool) (docs : List Doc) : Backend := fun req =>
  let found := docs.filter (fun d => req.query.satisfiedBy sem d)
  .ok { Hits := some { TotalHits := some { Value := found.length, Relation := "eq" },
                       Hits := found.map (fun d => { Source := d.Source }) } }

/-- The payload stored for the counter value `k`. -/
def counterPayload (k : Nat) : RawMessage := "\x7b\"Counter\":" ++ toString k ++ "\x7d"

/-- The record `json.Unmarshal` decodes from `counterPayload k`, for `k` below 2^53 (where
the float64 is the counter itself). -/
def counterRecord (k : Nat) : Value := .object [("Counter", .float64 k)]

/-- Documents with the distinct `Counter` values `0 .. n-1`, each with the payload of a JSON
object holding its counter. -/
def counterDocs (n : Nat) : List Doc :=
  (List.range n).map (fun (k : Nat) => { Counter := Int.ofNat k, Source := counterPayload k })

/-- A client that panics on every search, as a nil client does. -/
def panickingBackend (msg : String) : Backend := fun _ => .panicked msg

/-- A backend that is down: every search fails with the given message. -/
def failingBackend (msg : String) : Backend := fun _ => .error msg

/-- A backend that answers every search with the same response. -/
def constantBackend (result : SearchResult) : Backend := fun _ => .ok result

/-- A response carrying the given payloads as hits. -/
def responseOf (payloads : List RawMessage) : SearchResult :=
  { Hits := some { TotalHits := some { Value := payloads.length, Relation := "eq" },
                   Hits := payloads.map (fun src => { Source := src }) } }

/-- A decoder given by a finite table of payloads with their decodings; a payload outside
the table is rejected. -/
def tableUnmarshal (table : List (RawMessage × Value)) : Unmarshal := fun src =>
  (table.find? (fun entry => entry.1 == src)).map (fun entry => entry.2)

/-- Decodings of the JSON payloads `1`, `2`, `null` and `true`, as `json.Unmarshal` gives
them; `sampleUnmarshal` rejects the payload `oops`, which is not JSON. -/
def sampleUnmarshal : Unmarshal :=
  tableUnmarshal [("1", .float64 1), ("2", .float64 2), ("null", .nil), ("true", .bool true)]

/-- The decoder restricted to the payloads of `counterDocs n`. -/
def counterUnmarshal (n : Nat) : Unmarshal :=
  tableUnmarshal ((List.range n).map (fun (k : Nat) => (counterPayload k, counterRecord k)))

/-- A fresh adapter on the index "todos" with an unrestricted base query. -/
def freshAdapter : ElasticsearchAdapter := NewElasticsearchAdapter "todos" (some NewBoolQuery)

/-- An adapter on the index "todos" that was given a nil query. -/
def nilQueryAdapter : ElasticsearchAdapter := NewElasticsearchAdapter "todos" none

end Skeleton

namespace Skeleton

open ElasticsearchAdapter

/-! ## Shared lemmas -/

/-- The range clause `Slice` adds for a given offset and length. -/
theorem range_clause_eq (offset length : Int) :
    ((NewRangeQuery "Counter").From offset).To length =
      { name := "Counter", from_ := some offset, to_ := some length,
        includeLower := true, includeUpper := true } := rfl

/-- The range clause `Slice` adds contains exactly the values between its two bounds, both
bounds included. -/
theorem range_clause_contains (offset length c : Int) :
    (((NewRangeQuery "Counter").From offset).To length).contains c = true ↔
      offset ≤ c ∧ c ≤ length := by
  simp [range_clause_eq, RangeQuery.contains]

/-- With a nil query `Slice` panics at line 41: nothing is sent, nothing is changed. -/
theorem Slice_of_nil_query (unmarshal : Unmarshal) (backend : Backend)
    (es : ElasticsearchAdapter) (offset length : Int) (data : Data) (hq : es.query = none) :
    (Slice unmarshal backend es offset length data).request = none ∧
    (Slice unmarshal backend es offset length data).outcome =
      .panicked "nil pointer dereference" ∧
    (Slice unmarshal backend es offset length data).data = data ∧
    (Slice unmarshal backend es offset length data).adapter = es := by
  unfold Slice
  simp only [hq, and_self]

/-- The request `Slice` hands to the client when the query is not nil, whatever the answer. -/
theorem Slice_request (unmarshal : Unmarshal) (backend : Backend) (es : ElasticsearchAdapter)
    (base : BoolQuery) (offset length : Int) (data : Data) (hq : es.query = some base) :
    (Slice unmarshal backend es offset length data).request =
      some { index := es.index, ignoreUnavailable := true,
             query := base.Must [rangeClause offset length] } := by
  unfold Slice
  simp only [hq]
  split
  · rfl
  · rfl
  · split
    · rfl
    · split
      · rfl
      · split <;> rfl

/-- The adapter `Slice` leaves behind when the query is not nil, whatever the answer. -/
theorem Slice_adapter (unmarshal : Unmarshal) (backend : Backend) (es : ElasticsearchAdapter)
    (base : BoolQuery) (offset length : Int) (data : Data) (hq : es.query = some base) :
    (Slice unmarshal backend es offset length data).adapter =
      { index := es.index, query := some (base.Must [rangeClause offset length]) } := by
  unfold Slice
  simp only [hq]
  split
  · rfl
  · rfl
  · split
    · rfl
    · split
      · rfl
      · split <;> rfl

/-- The request `Nums` hands to the client when the query is not nil, whatever the answer. -/
theorem Nums_request (backend : Backend) (es : ElasticsearchAdapter) (base : BoolQuery)
    (hq : es.query = some base) :
    (Nums backend es).request =
      some { index := es.index, ignoreUnavailable := true, query := base } := by
  unfold Nums
  simp only [hq]
  split <;> rfl

/-- The loop appends the carried entries to the slice it started with. -/
theorem appendHits_eq (unmarshal : Unmarshal) (hits : List SearchHit) (record : Value)
    (records : List Value) :
    appendHits unmarshal hits record records = records ++ carriedEntries unmarshal hits record := by
  induction hits generalizing record records with
  | nil => simp [appendHits, carriedEntries]
  | cons hit rest ih =>
    cases h : unmarshal hit.Source <;> simp [appendHits, carriedEntries, h, ih]

/-- The loop produces one entry per hit. -/
theorem carriedEntries_length (unmarshal : Unmarshal) (hits : List SearchHit) (record : Value) :
    (carriedEntries unmarshal hits record).length = hits.length := by
  induction hits generalizing record with
  | nil => rfl
  | cons hit rest ih => simp [carriedEntries, ih]

/-- What `Slice` does when the client panics. -/
theorem Slice_of_panic (unmarshal : Unmarshal) (backend : Backend) (es : ElasticsearchAdapter)
    (base : BoolQuery) (offset length : Int) (data : Data) (msg : String)
    (hq : es.query = some base)
    (h : backend { index := es.index, ignoreUnavailable := true,
                   query := base.Must [rangeClause offset length] } = .panicked msg) :
    (Slice unmarshal backend es offset length data).outcome = .panicked msg ∧
    (Slice unmarshal backend es offset length data).data = data := by
  unfold Slice
  simp only [hq, h, and_self]

/-- What `Slice` does when the search fails. -/
theorem Slice_of_error (unmarshal : Unmarshal) (backend : Backend) (es : ElasticsearchAdapter)
    (base : BoolQuery) (offset length : Int) (data : Data) (msg : String)
    (hq : es.query = some base)
    (h : backend { index := es.index, ignoreUnavailable := true,
                   query := base.Must [rangeClause offset length] } = .error msg) :
    (Slice unmarshal backend es offset length data).outcome = .returned none ∧
    (Slice unmarshal backend es offset length data).data = data := by
  unfold Slice
  simp only [hq, h, and_self]

/-- What `Slice` does when the search succeeds, the hits object is there and the destination
points to a slice. -/
theorem Slice_of_hits (unmarshal : Unmarshal) (backend : Backend) (es : ElasticsearchAdapter)
    (base : BoolQuery) (offset length : Int) (records : List Value) (result : SearchResult)
    (hits : SearchHits) (hq : es.query = some base)
    (h : backend { index := es.index, ignoreUnavailable := true,
                   query := base.Must [rangeClause offset length] } = .ok result)
    (hh : result.Hits = some hits) :
    (Slice unmarshal backend es offset length (.slicePtr (some records))).outcome = .returned none ∧
    (Slice unmarshal backend es offset length (.slicePtr (some records))).data =
      .slicePtr (some (records ++ carriedEntries unmarshal hits.Hits Value.nil)) := by
  unfold Slice
  simp only [hq, h, hh, appendHits_eq, and_self]

/-- What `Slice` does when the search succeeds and the destination does not point to a
slice, or the hits object is absent: it panics and leaves the destination alone. -/
theorem Slice_of_bad_destination (unmarshal : Unmarshal) (backend : Backend)
    (es : ElasticsearchAdapter) (base : BoolQuery) (offset length : Int) (data : Data)
    (result : SearchResult) (hq : es.query = some base)
    (h : backend { index := es.index, ignoreUnavailable := true,
                   query := base.Must [rangeClause offset length] } = .ok result)
    (hd : data.pointsToSlice = false ∨ result.Hits = none) :
    (∃ m : String, (Slice unmarshal backend es offset length data).outcome = .panicked m) ∧
    (Slice unmarshal backend es offset length data).data = data := by
  unfold Slice
  simp only [hq, h]
  cases data with
  | other t => exact ⟨⟨_, rfl⟩, rfl⟩
  | slicePtr target =>
    cases hh : result.Hits with
    | none => exact ⟨⟨_, rfl⟩, rfl⟩
    | some hits =>
      cases target with
      | none => exact ⟨⟨_, rfl⟩, rfl⟩
      | some records =>
        rcases hd with hd | hd
        · simp [Data.pointsToSlice] at hd
        · rw [hh] at hd
          cases hd

/-- Each entry the loop produces is the decoding of its hit when there is one, and
otherwise the entry before it (the starting `record` for the first hit). -/
theorem carriedEntries_getElem (unmarshal : Unmarshal) (hits : List SearchHit) (record : Value)
    (i : Nat) (hi : i < hits.length) :
    (carriedEntries unmarshal hits record)[i]? =
      some (match unmarshal (hits[i]).Source with
        | some v => v
        | none => if i = 0 then record
                  else (carriedEntries unmarshal hits record).getD (i - 1) Value.nil) := by
  induction hits generalizing record i with
  | nil => exact absurd hi (Nat.not_lt_zero i)
  | cons hit rest ih =>
    cases i with
    | zero => cases h : unmarshal hit.Source <;> simp [carriedEntries, h]
    | succ j =>
      have hj : j < rest.length := Nat.lt_of_succ_lt_succ hi
      simp only [carriedEntries, List.getElem?_cons_succ, List.getElem_cons_succ]
      rw [ih _ j hj]
      cases j with
      | zero => simp
      | succ k => simp

/-- The entries the loop produces at the positions of the decodable hits are the decodings
of those hits, in hit order. -/
theorem carriedEntries_valid_positions (unmarshal : Unmarshal) (hits : List SearchHit)
    (record : Value) :
    (hits.zip (carriedEntries unmarshal hits record)).filterMap
        (fun p => if (unmarshal p.1.Source).isSome then some p.2 else none) =
      hits.filterMap (fun hit => unmarshal hit.Source) := by
  induction hits generalizing record with
  | nil => rfl
  | cons hit rest ih =>
    cases h : unmarshal hit.Source <;> simp [carriedEntries, h, ih]

/-- When every hit is decodable the loop produces exactly the decodings. -/
theorem carriedEntries_all_valid (unmarshal : Unmarshal) (hits : List SearchHit)
    (record : Value) (hv : ∀ hit ∈ hits, (unmarshal hit.Source).isSome = true) :
    carriedEntries unmarshal hits record = hits.filterMap (fun hit => unmarshal hit.Source) := by
  induction hits generalizing record with
  | nil => rfl
  | cons hit rest ih =>
    have h0 := hv hit (List.mem_cons_self hit rest)
    have hrest : ∀ x ∈ rest, (unmarshal x.Source).isSome = true :=
      fun x hx => hv x (List.mem_cons_of_mem hit hx)
    cases h : unmarshal hit.Source with
    | none => simp [h] at h0
    | some v => simp [carriedEntries, h, ih _ hrest]

/-- The length of the destination after `Slice`, when the search succeeds. -/
theorem Slice_length_of_ok (unmarshal : Unmarshal) (backend : Backend) (es : ElasticsearchAdapter)
    (base : BoolQuery) (offset length : Int) (data : Data) (result : SearchResult)
    (hq : es.query = some base)
    (h : backend { index := es.index, ignoreUnavailable := true,
                   query := base.Must [rangeClause offset length] } = .ok result) :
    (Slice unmarshal backend es offset length data).data.length =
      data.length + (if data.pointsToSlice then result.hitCount else 0) := by
  unfold Slice
  simp only [hq, h]
  cases data with
  | other t => rfl
  | slicePtr target =>
    cases hh : result.Hits with
    | none => cases target <;> simp [Data.length, Data.pointsToSlice, SearchResult.hitCount, hh]
    | some hits =>
      cases target with
      | none => simp [Data.length, Data.pointsToSlice]
      | some records =>
        simp [Data.length, Data.pointsToSlice, SearchResult.hitCount, hh, appendHits_eq,
          carriedEntries_length]

/-! ## Count -/

/-- C3: `Nums` is fail-open.  For every adapter state and every backend, when the search
`Nums` performs (bound index, bound query, ignore-unavailable set) comes back with an error,
`Nums` returns the count 0 together with a nil error. -/
theorem Nums_fail_open (backend : Backend) (es : ElasticsearchAdapter) (base : BoolQuery)
    (msg : String) (hq : es.query = some base)
    (h : backend { index := es.index, ignoreUnavailable := true, query := base } = .error msg) :
    (Nums backend es).outcome = .returned 0 none := by
  unfold Nums
  simp only [hq, h]

/-- Witness for C3: a fresh adapter in front of a backend that is down. -/
theorem Nums_fail_open_witness :
    freshAdapter.query = some NewBoolQuery ∧
    failingBackend "connection refused"
        { index := freshAdapter.index, ignoreUnavailable := true, query := NewBoolQuery } =
      .error "connection refused" ∧
    (Nums (failingBackend "connection refused") freshAdapter).outcome = .returned 0 none :=
  ⟨rfl, rfl,
    Nums_fail_open (failingBackend "connection refused") freshAdapter NewBoolQuery
      "connection refused" rfl rfl⟩

/-- C6: on a successful search `Nums` returns `(t, nil)`, where `t` is the total the
response reports in its hits object, and the one request `Nums` sent for it carries the bound
index, the ignore-unavailable flag set to true, and exactly the query that is bound at the
time of the call.  A response that reports no total is counted as 0. -/
theorem Nums_total_hits (backend : Backend) (es : ElasticsearchAdapter) (base : BoolQuery)
    (result : SearchResult) (hq : es.query = some base)
    (h : backend { index := es.index, ignoreUnavailable := true, query := base } = .ok result) :
    (Nums backend es).request =
      some { index := es.index, ignoreUnavailable := true, query := base } ∧
    (∀ (hits : SearchHits) (t : Int) (relation : String),
      result.Hits = some hits → hits.TotalHits = some { Value := t, Relation := relation } →
        (Nums backend es).outcome = .returned t none) ∧
    ((result.Hits = none ∨ ∃ hits : SearchHits, result.Hits = some hits ∧ hits.TotalHits = none) →
      (Nums backend es).outcome = .returned 0 none) := by
  refine ⟨Nums_request backend es base hq, ?_, ?_⟩
  · intro hits t relation hh ht
    unfold Nums
    simp only [hq, h, SearchResult.TotalHits, hh, ht]
  · intro hnone
    unfold Nums
    rcases hnone with hh | ⟨hits, hh, ht⟩
    · simp only [hq, h, SearchResult.TotalHits, hh]
    · simp only [hq, h, SearchResult.TotalHits, hh, ht]

/-- Witness for C6: 25 stored documents, counted through a fresh adapter, give the count
25; a backend that reports the total 7 with no hit listed gives the count 7. -/
theorem Nums_total_hits_witness :
    (Nums (indexBackend (fun _ _ => true) (counterDocs 25)) freshAdapter).request =
      some { index := "todos", ignoreUnavailable := true, query := NewBoolQuery } ∧
    (Nums (indexBackend (fun _ _ => true) (counterDocs 25)) freshAdapter).outcome =
      .returned 25 none ∧
    (Nums (constantBackend { Hits := some { TotalHits := some { Value := 7, Relation := "gte" },
                                             Hits := [] } }) freshAdapter).outcome =
      .returned 7 none :=
  ⟨(Nums_total_hits (indexBackend (fun _ _ => true) (counterDocs 25)) freshAdapter NewBoolQuery
      (responseOf ((List.range 25).map counterPayload)) rfl rfl).1,
    (Nums_total_hits (indexBackend (fun _ _ => true) (counterDocs 25)) freshAdapter NewBoolQuery
      (responseOf ((List.range 25).map counterPayload)) rfl rfl).2.1
      { TotalHits := some { Value := 25, Relation := "eq" },
        Hits := ((List.range 25).map counterPayload).map (fun src => { Source := src }) }
      25 "eq" rfl rfl,
    (Nums_total_hits
      (constantBackend { Hits := some { TotalHits := some { Value := 7, Relation := "gte" },
                                        Hits := [] } })
      freshAdapter NewBoolQuery
      { Hits := some { TotalHits := some { Value := 7, Relation := "gte" }, Hits := [] } }
      rfl rfl).2.1
      { TotalHits := some { Value := 7, Relation := "gte" }, Hits := [] } 7 "gte" rfl rfl⟩

/-! ## Slice: the request -/

/-- C7, as the code has it: the search `Slice offset length` sends goes to the bound index
with the ignore-unavailable flag set, and its query is the bound query with exactly one more
must clause, a range on "Counter" from `offset` to `length`.  Both bounds are included: the
clause selects the closed interval from `offset` to `length`, not the half-open one. -/
theorem Slice_request_closed_range (unmarshal : Unmarshal) (backend : Backend)
    (es : ElasticsearchAdapter) (base : BoolQuery) (offset length : Int) (data : Data)
    (hq : es.query = some base) :
    (Slice unmarshal backend es offset length data).request =
      some { index := es.index, ignoreUnavailable := true,
             query :=
              { mustClauses := base.mustClauses ++
                  [Query.range { name := "Counter", from_ := some offset, to_ := some length,
                                 includeLower := true, includeUpper := true }],
                mustNotClauses := base.mustNotClauses,
                filterClauses := base.filterClauses,
                shouldClauses := base.shouldClauses } } ∧
    ∀ c : Int,
      RangeQuery.contains { name := "Counter", from_ := some offset, to_ := some length,
                            includeLower := true, includeUpper := true } c = true ↔
        offset ≤ c ∧ c ≤ length := by
  rw [Slice_request unmarshal backend es base offset length data hq]
  refine ⟨rfl, fun c => ?_⟩
  rw [← range_clause_eq]
  exact range_clause_contains offset length c

/-- Witness for C7 as amended: `Slice 0 10` on a fresh adapter. -/
theorem Slice_request_closed_range_witness :
    freshAdapter.query = some NewBoolQuery ∧
    (Slice sampleUnmarshal (failingBackend "down") freshAdapter 0 10
        (.slicePtr (some []))).request =
      some { index := "todos", ignoreUnavailable := true,
             query :=
              { mustClauses := [] ++
                  [Query.range { name := "Counter", from_ := some 0, to_ := some 10,
                                 includeLower := true, includeUpper := true }],
                mustNotClauses := [], filterClauses := [], shouldClauses := [] } } ∧
    ∀ c : Int,
      RangeQuery.contains { name := "Counter", from_ := some 0, to_ := some 10,
                            includeLower := true, includeUpper := true } c = true ↔
        0 ≤ c ∧ c ≤ 10 :=
  ⟨rfl, Slice_request_closed_range sampleUnmarshal (failingBackend "down") freshAdapter
    NewBoolQuery 0 10 (.slicePtr (some [])) rfl⟩

/-- C7 as stated fails: the one clause `Slice 0 10` adds to an unrestricted query contains
the value 10 itself, so the document with counter 10 satisfies the query that is sent,
although 10 is outside the half-open interval from 0 to 10. -/
theorem Slice_range_includes_upper_bound :
    ∃ (req : SearchRequest) (r : RangeQuery),
      (Slice sampleUnmarshal (failingBackend "down") freshAdapter 0 10
          (.slicePtr (some []))).request = some req ∧
      req.query.mustClauses = [Query.range r] ∧
      r.contains 10 = true ∧
      req.query.satisfiedBy (fun _ _ => true)
        { Counter := 10, Source := counterPayload 10 } = true ∧
      ¬ ((0 : Int) ≤ 10 ∧ (10 : Int) < 10) :=
  ⟨{ index := "todos", ignoreUnavailable := true,
     query := NewBoolQuery.Must [rangeClause 0 10] },
    { name := "Counter", from_ := some 0, to_ := some 10, includeLower := true, includeUpper := true },
    rfl, rfl, by decide, by decide, by decide⟩

/-- C8: `Slice` mutates the bound query cumulatively.  After a first `Slice o1 l1` and a
second `Slice o2 l2` on the same adapter, whatever the two backends answered and whatever the
destinations were, the query of the second request is the base query with both range clauses
added to its must list, a later `Nums` sends that same query, and a document that satisfies
it has its counter in both windows: the filter is the intersection of the two windows. -/
theorem Slice_query_cumulative (unmarshal : Unmarshal) (b1 b2 b3 : Backend)
    (es : ElasticsearchAdapter) (base : BoolQuery) (o1 l1 o2 l2 : Int) (d1 d2 : Data)
    (hq : es.query = some base) :
    (Slice unmarshal b2 (Slice unmarshal b1 es o1 l1 d1).adapter o2 l2 d2).request =
      some { index := es.index, ignoreUnavailable := true,
             query :=
              { mustClauses := base.mustClauses ++
                  [Query.range (((NewRangeQuery "Counter").From o1).To l1),
                   Query.range (((NewRangeQuery "Counter").From o2).To l2)],
                mustNotClauses := base.mustNotClauses,
                filterClauses := base.filterClauses,
                shouldClauses := base.shouldClauses } } ∧
    (Nums b3 (Slice unmarshal b2 (Slice unmarshal b1 es o1 l1 d1).adapter o2 l2 d2).adapter).request =
      (Slice unmarshal b2 (Slice unmarshal b1 es o1 l1 d1).adapter o2 l2 d2).request ∧
    (∀ (sem : String → Doc → Bool) (d : Doc) (req : SearchRequest),
      (Slice unmarshal b2 (Slice unmarshal b1 es o1 l1 d1).adapter o2 l2 d2).request = some req →
        req.query.satisfiedBy sem d = true →
        (o1 ≤ d.Counter ∧ d.Counter ≤ l1) ∧ (o2 ≤ d.Counter ∧ d.Counter ≤ l2)) ∧
    (∀ c : Int,
      ((((NewRangeQuery "Counter").From o1).To l1).contains c = true ∧
        (((NewRangeQuery "Counter").From o2).To l2).contains c = true) ↔
      ((o1 ≤ c ∧ c ≤ l1) ∧ (o2 ≤ c ∧ c ≤ l2))) := by
  have ha1 := Slice_adapter unmarshal b1 es base o1 l1 d1 hq
  have hq1 : (Slice unmarshal b1 es o1 l1 d1).adapter.query =
      some (base.Must [rangeClause o1 l1]) := by rw [ha1]
  have hi1 : (Slice unmarshal b1 es o1 l1 d1).adapter.index = es.index := by rw [ha1]
  have hr2 := Slice_request unmarshal b2 (Slice unmarshal b1 es o1 l1 d1).adapter
    (base.Must [rangeClause o1 l1]) o2 l2 d2 hq1
  have ha2 := Slice_adapter unmarshal b2 (Slice unmarshal b1 es o1 l1 d1).adapter
    (base.Must [rangeClause o1 l1]) o2 l2 d2 hq1
  have hreq : (Slice unmarshal b2 (Slice unmarshal b1 es o1 l1 d1).adapter o2 l2 d2).request =
      some { index := es.index, ignoreUnavailable := true,
             query :=
              { mustClauses := base.mustClauses ++
                  [Query.range (((NewRangeQuery "Counter").From o1).To l1),
                   Query.range (((NewRangeQuery "Counter").From o2).To l2)],
                mustNotClauses := base.mustNotClauses,
                filterClauses := base.filterClauses,
                shouldClauses := base.shouldClauses } } := by
    rw [hr2, hi1]
    simp [BoolQuery.Must, rangeClause]
  refine ⟨hreq, ?_, ?_, fun c => by
    rw [range_clause_contains, range_clause_contains]⟩
  · have hq2 : (Slice unmarshal b2 (Slice unmarshal b1 es o1 l1 d1).adapter o2 l2 d2).adapter.query =
        some ((base.Must [rangeClause o1 l1]).Must [rangeClause o2 l2]) := by rw [ha2]
    rw [Nums_request b3 _ _ hq2, hr2, ha2]
  · intro sem d req hreq2 h
    rw [hreq] at hreq2
    cases hreq2
    simp only [BoolQuery.satisfiedBy, Bool.and_eq_true, List.all_append, List.all_cons,
      List.all_nil, Bool.and_true, Query.satisfiedBy] at h
    obtain ⟨⟨⟨⟨_, ⟨_, h1⟩, ⟨_, h2⟩⟩, _⟩, _⟩, _⟩ := h
    exact ⟨(range_clause_contains o1 l1 d.Counter).mp h1,
      (range_clause_contains o2 l2 d.Counter).mp h2⟩

/-- Illustration of C8 on the index holding the counters 0 to 24: after `Slice 0 10`, a
second `Slice 5 20` on the same adapter sends both range clauses and gets the six records 5
to 10, the intersection of the two windows, where a fresh adapter gets the records 5 to 20. -/
theorem Slice_query_cumulative_witness :
    freshAdapter.query = some NewBoolQuery ∧
    (Slice (counterUnmarshal 25) (indexBackend (fun _ _ => true) (counterDocs 25))
        (Slice (counterUnmarshal 25) (indexBackend (fun _ _ => true) (counterDocs 25))
          freshAdapter 0 10 (.slicePtr (some []))).adapter 5 20 (.slicePtr (some []))).request =
      some { index := "todos", ignoreUnavailable := true,
             query :=
              { mustClauses := [] ++
                  [Query.range (((NewRangeQuery "Counter").From 0).To 10),
                   Query.range (((NewRangeQuery "Counter").From 5).To 20)],
                mustNotClauses := [], filterClauses := [], shouldClauses := [] } } ∧
    (Slice (counterUnmarshal 25) (indexBackend (fun _ _ => true) (counterDocs 25))
        (Slice (counterUnmarshal 25) (indexBackend (fun _ _ => true) (counterDocs 25))
          freshAdapter 0 10 (.slicePtr (some []))).adapter 5 20 (.slicePtr (some []))).data =
      .slicePtr (some ((List.range' 5 6).map counterRecord)) ∧
    (Slice (counterUnmarshal 25) (indexBackend (fun _ _ => true) (counterDocs 25))
        freshAdapter 5 20 (.slicePtr (some []))).data =
      .slicePtr (some ((List.range' 5 16).map counterRecord)) :=
  ⟨rfl,
    (Slice_query_cumulative (counterUnmarshal 25) (indexBackend (fun _ _ => true) (counterDocs 25))
      (indexBackend (fun _ _ => true) (counterDocs 25))
      (indexBackend (fun _ _ => true) (counterDocs 25)) freshAdapter NewBoolQuery 0 10 5 20
      (.slicePtr (some [])) (.slicePtr (some [])) rfl).1, rfl, rfl⟩

/-! ## Slice: the destination -/

/-- C1, evaluated on the code: against an index holding the counters 0 to 24 that returns
exactly the documents satisfying the query, a fresh adapter with an unrestricted base query
and an empty destination gets the 11 records with counters 0 to 10 from `Slice 0 10`, and no
record at all from `Slice 20 10` and from `Slice 30 10`.  The window from `offset` to
`offset + limit` would be the 10 records 0 to 9, the 5 records 20 to 24, and none. -/
theorem Slice_window_on_counters :
    (Slice (counterUnmarshal 25) (indexBackend (fun _ _ => true) (counterDocs 25)) freshAdapter
        0 10 (.slicePtr (some []))).data =
      .slicePtr (some ((List.range 11).map counterRecord)) ∧
    (Slice (counterUnmarshal 25) (indexBackend (fun _ _ => true) (counterDocs 25)) freshAdapter
        20 10 (.slicePtr (some []))).data = .slicePtr (some []) ∧
    (Slice (counterUnmarshal 25) (indexBackend (fun _ _ => true) (counterDocs 25)) freshAdapter
        30 10 (.slicePtr (some []))).data = .slicePtr (some []) ∧
    (Slice (counterUnmarshal 25) (indexBackend (fun _ _ => true) (counterDocs 25)) freshAdapter
        0 10 (.slicePtr (some []))).data.length = 11 ∧
    (Slice (counterUnmarshal 25) (indexBackend (fun _ _ => true) (counterDocs 25)) freshAdapter
        20 10 (.slicePtr (some []))).data.length = 0 :=
  ⟨rfl, rfl, rfl, rfl, rfl⟩

/-- C2, as the code has it: on a successful search, for every offset, every limit and every
initial destination, the destination grows by exactly the number of hits the response carries
when it is a non-nil pointer to a slice, and by nothing otherwise.  So the growth never
exceeds the number of hits, and for a destination that points to a slice it is at most `limit`
exactly when the response carries at most `limit` hits: `Slice` itself enforces no cap. -/
theorem Slice_growth_eq_hits (unmarshal : Unmarshal) (backend : Backend)
    (es : ElasticsearchAdapter) (base : BoolQuery) (offset limit : Int) (data : Data)
    (result : SearchResult) (hq : es.query = some base)
    (h : backend { index := es.index, ignoreUnavailable := true,
                   query := base.Must [rangeClause offset limit] } = .ok result) :
    ((Slice unmarshal backend es offset limit data).data.length : Int) - (data.length : Int) =
        (if data.pointsToSlice then (result.hitCount : Int) else 0) ∧
    ((Slice unmarshal backend es offset limit data).data.length : Int) - (data.length : Int) ≤
        (result.hitCount : Int) ∧
    (data.pointsToSlice = true →
      (((Slice unmarshal backend es offset limit data).data.length : Int) - (data.length : Int) ≤
          limit ↔ (result.hitCount : Int) ≤ limit)) := by
  have hlen := Slice_length_of_ok unmarshal backend es base offset limit data result hq h
  have heq : ((Slice unmarshal backend es offset limit data).data.length : Int) -
      (data.length : Int) = (if data.pointsToSlice then (result.hitCount : Int) else 0) := by
    rw [hlen]
    split <;> simp
  refine ⟨heq, ?_, ?_⟩
  · rw [heq]
    split <;> simp
  · intro hp
    rw [heq, if_pos hp]

/-- Witness for C2 as amended: a response with two hits and the limit 1 makes a
destination with one element grow by 2, which is not at most 1. -/
theorem Slice_growth_eq_hits_witness :
    freshAdapter.query = some NewBoolQuery ∧
    ((Slice sampleUnmarshal (constantBackend (responseOf ["1", "2"])) freshAdapter 0 1
        (.slicePtr (some [.nil]))).data.length : Int) - ((Data.slicePtr (some [.nil])).length : Int) =
      (if (Data.slicePtr (some [.nil])).pointsToSlice
        then ((responseOf ["1", "2"]).hitCount : Int) else 0) ∧
    ((responseOf ["1", "2"]).hitCount : Int) = 2 ∧
    ((Slice sampleUnmarshal (constantBackend (responseOf ["1", "2"])) freshAdapter 0 1
        (.slicePtr (some [.nil]))).data.length : Int) - ((Data.slicePtr (some [.nil])).length : Int) ≤
      ((responseOf ["1", "2"]).hitCount : Int) :=
  ⟨rfl,
    (Slice_growth_eq_hits sampleUnmarshal (constantBackend (responseOf ["1", "2"])) freshAdapter
      NewBoolQuery 0 1 (.slicePtr (some [.nil])) (responseOf ["1", "2"]) rfl rfl).1,
    by decide,
    (Slice_growth_eq_hits sampleUnmarshal (constantBackend (responseOf ["1", "2"])) freshAdapter
      NewBoolQuery 0 1 (.slicePtr (some [.nil])) (responseOf ["1", "2"]) rfl rfl).2.1⟩

/-- C2 as stated fails: with the limit 1 and an empty destination, a successful response
that carries two hits makes the destination grow by 2; so does the index holding the counters
0 to 24, which answers the request of `Slice 0 1` with the two documents 0 and 1. -/
theorem Slice_growth_exceeds_limit :
    ¬ (((Slice sampleUnmarshal (constantBackend (responseOf ["1", "2"])) freshAdapter 0 1
          (.slicePtr (some []))).data.length : Int) - ((Data.slicePtr (some [])).length : Int) ≤ 1) ∧
    ¬ (((Slice (counterUnmarshal 25) (indexBackend (fun _ _ => true) (counterDocs 25)) freshAdapter
          0 1 (.slicePtr (some []))).data.length : Int) - ((Data.slicePtr (some [])).length : Int) ≤ 1) := by
  constructor <;> decide

/-- C4: `Slice` degrades to a no-op success when the backend fails.  For every offset,
length and destination (of whatever type), when the search `Slice` sends comes back with an
error, `Slice` returns nil and the destination is exactly what it was before the call. -/
theorem Slice_error_noop (unmarshal : Unmarshal) (backend : Backend) (es : ElasticsearchAdapter)
    (base : BoolQuery) (offset length : Int) (data : Data) (msg : String)
    (hq : es.query = some base)
    (h : backend { index := es.index, ignoreUnavailable := true,
                   query := base.Must [rangeClause offset length] } = .error msg) :
    (Slice unmarshal backend es offset length data).request =
      some { index := es.index, ignoreUnavailable := true,
             query := base.Must [rangeClause offset length] } ∧
    (Slice unmarshal backend es offset length data).outcome = .returned none ∧
    (Slice unmarshal backend es offset length data).data = data ∧
    (Slice unmarshal backend es offset length data).data.length = data.length := by
  obtain ⟨h1, h2⟩ := Slice_of_error unmarshal backend es base offset length data msg hq h
  exact ⟨Slice_request unmarshal backend es base offset length data hq, h1, h2, by rw [h2]⟩

/-- Witness for C4: a destination with two elements in front of a backend that is down. -/
theorem Slice_error_noop_witness :
    freshAdapter.query = some NewBoolQuery ∧
    failingBackend "timeout"
        { index := freshAdapter.index, ignoreUnavailable := true,
          query := NewBoolQuery.Must [rangeClause 0 10] } = .error "timeout" ∧
    (Slice sampleUnmarshal (failingBackend "timeout") freshAdapter 0 10
        (.slicePtr (some [.bool true, .nil]))).request =
      some { index := freshAdapter.index, ignoreUnavailable := true,
             query := NewBoolQuery.Must [rangeClause 0 10] } ∧
    (Slice sampleUnmarshal (failingBackend "timeout") freshAdapter 0 10
        (.slicePtr (some [.bool true, .nil]))).outcome = .returned none ∧
    (Slice sampleUnmarshal (failingBackend "timeout") freshAdapter 0 10
        (.slicePtr (some [.bool true, .nil]))).data = .slicePtr (some [.bool true, .nil]) ∧
    (Slice sampleUnmarshal (failingBackend "timeout") freshAdapter 0 10
        (.slicePtr (some [.bool true, .nil]))).data.length =
      (Data.slicePtr (some [.bool true, .nil])).length :=
  ⟨rfl, rfl, Slice_error_noop sampleUnmarshal (failingBackend "timeout") freshAdapter NewBoolQuery
    0 10 (.slicePtr (some [.bool true, .nil])) "timeout" rfl rfl⟩

/-- C5, as the code has it: a malformed hit does not abort the loop and is not dropped.  On
a successful search with the hits object present and a destination pointing to a slice, every
hit contributes one entry; the entries at the positions of the hits with a valid payload are
exactly the decodings of those hits, in hit order, so the hits after a malformed one are still
decoded; and the appended entries are exactly the decodings when no hit is malformed. -/
theorem Slice_valid_hits_decoded (unmarshal : Unmarshal) (backend : Backend)
    (es : ElasticsearchAdapter) (base : BoolQuery) (offset length : Int) (records : List Value)
    (result : SearchResult) (hits : SearchHits) (hq : es.query = some base)
    (h : backend { index := es.index, ignoreUnavailable := true,
                   query := base.Must [rangeClause offset length] } = .ok result)
    (hh : result.Hits = some hits) :
    ∃ entries : List Value,
      (Slice unmarshal backend es offset length (.slicePtr (some records))).data =
        .slicePtr (some (records ++ entries)) ∧
      entries.length = hits.Hits.length ∧
      (hits.Hits.zip entries).filterMap
          (fun p => if (unmarshal p.1.Source).isSome then some p.2 else none) =
        hits.Hits.filterMap (fun hit => unmarshal hit.Source) ∧
      ((∀ hit ∈ hits.Hits, (unmarshal hit.Source).isSome = true) →
        entries = hits.Hits.filterMap (fun hit => unmarshal hit.Source)) :=
  ⟨carriedEntries unmarshal hits.Hits Value.nil,
    (Slice_of_hits unmarshal backend es base offset length records result hits hq h hh).2,
    carriedEntries_length unmarshal hits.Hits Value.nil,
    carriedEntries_valid_positions unmarshal hits.Hits Value.nil,
    carriedEntries_all_valid unmarshal hits.Hits Value.nil⟩

/-- Witness for C5 as amended: the hits `1`, `oops`, `2` appended to an empty destination. -/
theorem Slice_valid_hits_decoded_witness :
    freshAdapter.query = some NewBoolQuery ∧
    constantBackend (responseOf ["1", "oops", "2"])
        { index := freshAdapter.index, ignoreUnavailable := true,
          query := NewBoolQuery.Must [rangeClause 0 10] } = .ok (responseOf ["1", "oops", "2"]) ∧
    (responseOf ["1", "oops", "2"]).Hits =
      some { TotalHits := some { Value := 3, Relation := "eq" },
             Hits := [{ Source := "1" }, { Source := "oops" }, { Source := "2" }] } ∧
    ∃ entries : List Value,
      (Slice sampleUnmarshal (constantBackend (responseOf ["1", "oops", "2"])) freshAdapter 0 10
          (.slicePtr (some []))).data = .slicePtr (some ([] ++ entries)) ∧
      entries.length = [({ Source := "1" } : SearchHit), { Source := "oops" }, { Source := "2" }].length ∧
      ([({ Source := "1" } : SearchHit), { Source := "oops" }, { Source := "2" }].zip entries).filterMap
          (fun p => if (sampleUnmarshal p.1.Source).isSome then some p.2 else none) =
        [({ Source := "1" } : SearchHit), { Source := "oops" }, { Source := "2" }].filterMap
          (fun hit => sampleUnmarshal hit.Source) ∧
      ((∀ hit ∈ [({ Source := "1" } : SearchHit), { Source := "oops" }, { Source := "2" }],
          (sampleUnmarshal hit.Source).isSome = true) →
        entries = [({ Source := "1" } : SearchHit), { Source := "oops" }, { Source := "2" }].filterMap
          (fun hit => sampleUnmarshal hit.Source)) :=
  ⟨rfl, rfl, rfl,
    Slice_valid_hits_decoded sampleUnmarshal (constantBackend (responseOf ["1", "oops", "2"]))
      freshAdapter NewBoolQuery 0 10 [] (responseOf ["1", "oops", "2"])
      { TotalHits := some { Value := 3, Relation := "eq" },
        Hits := [{ Source := "1" }, { Source := "oops" }, { Source := "2" }] } rfl rfl rfl⟩

/-- C5 as stated fails: for the hits `1`, `oops`, `2` (the second is not JSON) `Slice`
appends three entries to an empty destination, the decoding of `1` twice and then the
decoding of `2`; the decodings of the valid hits alone are two entries. -/
theorem Slice_keeps_malformed_hit :
    (Slice sampleUnmarshal (constantBackend (responseOf ["1", "oops", "2"])) freshAdapter 0 10
        (.slicePtr (some []))).data =
      .slicePtr (some [.float64 1, .float64 1, .float64 2]) ∧
    [({ Source := "1" } : SearchHit), { Source := "oops" }, { Source := "2" }].filterMap
        (fun hit => sampleUnmarshal hit.Source) = [.float64 1, .float64 2] ∧
    (Slice sampleUnmarshal (constantBackend (responseOf ["1", "oops", "2"])) freshAdapter 0 10
        (.slicePtr (some []))).data ≠
      .slicePtr (some ([] ++ [({ Source := "1" } : SearchHit), { Source := "oops" },
        { Source := "2" }].filterMap (fun hit => sampleUnmarshal hit.Source))) := by
  refine ⟨rfl, rfl, ?_⟩
  intro h
  have hlen := congrArg Data.length h
  revert hlen
  decide

/-- C9: on a successful search returning the hits `h1 .. hn`, with a destination pointing
to a slice, `Slice` leaves the destination equal to its previous contents followed by exactly
`n` entries in hit order; entry `i` is the decoding of hit `i` when its payload is valid JSON,
and otherwise the entry before it, nil for the first hit. -/
theorem Slice_appends_one_entry_per_hit (unmarshal : Unmarshal) (backend : Backend)
    (es : ElasticsearchAdapter) (base : BoolQuery) (offset length : Int) (records : List Value)
    (result : SearchResult) (hits : SearchHits) (hq : es.query = some base)
    (h : backend { index := es.index, ignoreUnavailable := true,
                   query := base.Must [rangeClause offset length] } = .ok result)
    (hh : result.Hits = some hits) :
    ∃ entries : List Value,
      (Slice unmarshal backend es offset length (.slicePtr (some records))).outcome =
        .returned none ∧
      (Slice unmarshal backend es offset length (.slicePtr (some records))).data =
        .slicePtr (some (records ++ entries)) ∧
      (Slice unmarshal backend es offset length (.slicePtr (some records))).data.length =
        records.length + hits.Hits.length ∧
      entries.length = hits.Hits.length ∧
      ∀ (i : Nat) (hi : i < hits.Hits.length),
        entries[i]? =
          some (match unmarshal (hits.Hits[i]).Source with
            | some v => v
            | none => if i = 0 then Value.nil else entries.getD (i - 1) Value.nil) := by
  obtain ⟨h1, h2⟩ :=
    Slice_of_hits unmarshal backend es base offset length records result hits hq h hh
  refine ⟨carriedEntries unmarshal hits.Hits Value.nil, h1, h2, ?_,
    carriedEntries_length unmarshal hits.Hits Value.nil,
    fun i hi => carriedEntries_getElem unmarshal hits.Hits Value.nil i hi⟩
  rw [h2]
  simp [Data.length, carriedEntries_length]

/-- Witness for C9: the hits `oops`, `true`, `oops`, `2` appended to a destination that
already holds one element give nil, true, true, 2. -/
theorem Slice_appends_one_entry_per_hit_witness :
    freshAdapter.query = some NewBoolQuery ∧
    (constantBackend (responseOf ["oops", "true", "oops", "2"])
        { index := freshAdapter.index, ignoreUnavailable := true,
          query := NewBoolQuery.Must [rangeClause 0 10] } =
      .ok (responseOf ["oops", "true", "oops", "2"])) ∧
    (Slice sampleUnmarshal (constantBackend (responseOf ["oops", "true", "oops", "2"]))
        freshAdapter 0 10 (.slicePtr (some [.string "old"]))).data =
      .slicePtr (some [.string "old", .nil, .bool true, .bool true, .float64 2]) ∧
    ∃ entries : List Value,
      (Slice sampleUnmarshal (constantBackend (responseOf ["oops", "true", "oops", "2"]))
          freshAdapter 0 10 (.slicePtr (some [.string "old"]))).outcome = .returned none ∧
      (Slice sampleUnmarshal (constantBackend (responseOf ["oops", "true", "oops", "2"]))
          freshAdapter 0 10 (.slicePtr (some [.string "old"]))).data =
        .slicePtr (some ([.string "old"] ++ entries)) ∧
      (Slice sampleUnmarshal (constantBackend (responseOf ["oops", "true", "oops", "2"]))
          freshAdapter 0 10 (.slicePtr (some [.string "old"]))).data.length =
        [Value.string "old"].length +
          [({ Source := "oops" } : SearchHit), { Source := "true" }, { Source := "oops" },
            { Source := "2" }].length ∧
      entries.length =
        [({ Source := "oops" } : SearchHit), { Source := "true" }, { Source := "oops" },
          { Source := "2" }].length ∧
      ∀ (i : Nat) (hi : i < [({ Source := "oops" } : SearchHit), { Source := "true" },
          { Source := "oops" }, { Source := "2" }].length),
        entries[i]? =
          some (match sampleUnmarshal ([({ Source := "oops" } : SearchHit), { Source := "true" },
              { Source := "oops" }, { Source := "2" }][i]).Source with
            | some v => v
            | none => if i = 0 then Value.nil else entries.getD (i - 1) Value.nil) :=
  ⟨rfl, rfl, rfl,
    Slice_appends_one_entry_per_hit sampleUnmarshal
      (constantBackend (responseOf ["oops", "true", "oops", "2"])) freshAdapter NewBoolQuery 0 10
      [.string "old"] (responseOf ["oops", "true", "oops", "2"])
      { TotalHits := some { Value := 4, Relation := "eq" },
        Hits := [{ Source := "oops" }, { Source := "true" }, { Source := "oops" },
          { Source := "2" }] } rfl rfl rfl⟩

/-- C10, as the code has it: `Slice` never reports an error, and it looks at the
destination only after a successful search.  It never returns a non-nil error.  With a nil
bound query it panics at line 41 with nothing sent.  Otherwise: when the search fails it
returns nil for any destination whatsoever; when the client itself panics so does `Slice`;
when the search succeeds with the hits object present and the destination is a non-nil pointer
to a slice of untyped values it returns nil; and when the search succeeds with a destination
of another type, a nil destination pointer or an absent hits object it panics.  So a panic
requires a nil bound query, a panic of the client, or a successful search together with a
destination of another type, a nil destination pointer or an absent hits object. -/
theorem Slice_never_errors (unmarshal : Unmarshal) (backend : Backend)
    (es : ElasticsearchAdapter) (offset length : Int) (data : Data) :
    (∀ e : String,
      (Slice unmarshal backend es offset length data).outcome ≠ .returned (some e)) ∧
    (es.query = none →
      (Slice unmarshal backend es offset length data).request = none ∧
      ∃ m : String, (Slice unmarshal backend es offset length data).outcome = .panicked m) ∧
    (∀ base : BoolQuery, es.query = some base →
      (∀ msg : String,
        backend { index := es.index, ignoreUnavailable := true,
                  query := base.Must [rangeClause offset length] } = .error msg →
          (Slice unmarshal backend es offset length data).outcome = .returned none) ∧
      (∀ msg : String,
        backend { index := es.index, ignoreUnavailable := true,
                  query := base.Must [rangeClause offset length] } = .panicked msg →
          (Slice unmarshal backend es offset length data).outcome = .panicked msg) ∧
      (∀ result : SearchResult,
        backend { index := es.index, ignoreUnavailable := true,
                  query := base.Must [rangeClause offset length] } = .ok result →
          ((∃ (hits : SearchHits) (records : List Value),
              result.Hits = some hits ∧ data = .slicePtr (some records)) →
            (Slice unmarshal backend es offset length data).outcome = .returned none) ∧
          (((∃ t : String, data = .other t) ∨ data = .slicePtr none ∨ result.Hits = none) →
            ∃ m : String,
              (Slice unmarshal backend es offset length data).outcome = .panicked m))) ∧
    (∀ m : String,
      (Slice unmarshal backend es offset length data).outcome = .panicked m →
        es.query = none ∨
        ∃ base : BoolQuery, es.query = some base ∧
          ((∃ msg : String,
              backend { index := es.index, ignoreUnavailable := true,
                        query := base.Must [rangeClause offset length] } = .panicked msg) ∨
           ∃ result : SearchResult,
              backend { index := es.index, ignoreUnavailable := true,
                        query := base.Must [rangeClause offset length] } = .ok result ∧
              ((∃ t : String, data = .other t) ∨ data = .slicePtr none ∨
                result.Hits = none))) := by
  have good : ∀ (base : BoolQuery) (result : SearchResult) (hits : SearchHits)
      (records : List Value), es.query = some base →
      backend { index := es.index, ignoreUnavailable := true,
                query := base.Must [rangeClause offset length] } = .ok result →
      result.Hits = some hits → data = .slicePtr (some records) →
      (Slice unmarshal backend es offset length data).outcome = .returned none := by
    intro base result hits records hq hb hh hd
    subst hd
    exact (Slice_of_hits unmarshal backend es base offset length records result hits hq hb hh).1
  have bad : ∀ (base : BoolQuery) (result : SearchResult), es.query = some base →
      backend { index := es.index, ignoreUnavailable := true,
                query := base.Must [rangeClause offset length] } = .ok result →
      ((∃ t : String, data = .other t) ∨ data = .slicePtr none ∨ result.Hits = none) →
      ∃ m : String, (Slice unmarshal backend es offset length data).outcome = .panicked m := by
    intro base result hq hb hd
    refine (Slice_of_bad_destination unmarshal backend es base offset length data result hq hb ?_).1
    rcases hd with ⟨t, hd⟩ | hd | hd
    · exact Or.inl (by rw [hd]; rfl)
    · exact Or.inl (by rw [hd]; rfl)
    · exact Or.inr hd
  refine ⟨?_, ?_, ?_, ?_⟩
  · intro e
    cases hq : es.query with
    | none =>
      rw [(Slice_of_nil_query unmarshal backend es offset length data hq).2.1]
      simp
    | some base =>
      cases hb : backend { index := es.index, ignoreUnavailable := true,
                           query := base.Must [rangeClause offset length] } with
      | error msg =>
        rw [(Slice_of_error unmarshal backend es base offset length data msg hq hb).1]
        simp
      | panicked msg =>
        rw [(Slice_of_panic unmarshal backend es base offset length data msg hq hb).1]
        simp
      | ok result =>
        cases data with
        | other t =>
          obtain ⟨m, hm⟩ := bad base result hq hb (Or.inl ⟨t, rfl⟩)
          rw [hm]
          simp
        | slicePtr target =>
          cases target with
          | none =>
            obtain ⟨m, hm⟩ := bad base result hq hb (Or.inr (Or.inl rfl))
            rw [hm]
            simp
          | some records =>
            cases hh : result.Hits with
            | none =>
              obtain ⟨m, hm⟩ := bad base result hq hb (Or.inr (Or.inr hh))
              rw [hm]
              simp
            | some hits =>
              rw [good base result hits records hq hb hh rfl]
              simp
  · intro hq
    obtain ⟨h1, h2, _, _⟩ := Slice_of_nil_query unmarshal backend es offset length data hq
    exact ⟨h1, _, h2⟩
  · intro base hq
    refine ⟨fun msg hb => (Slice_of_error unmarshal backend es base offset length data msg hq hb).1,
      fun msg hb => (Slice_of_panic unmarshal backend es base offset length data msg hq hb).1,
      fun result hb => ⟨?_, bad base result hq hb⟩⟩
    rintro ⟨hits, records, hh, hd⟩
    exact good base result hits records hq hb hh hd
  · intro m hm
    cases hq : es.query with
    | none => exact Or.inl rfl
    | some base =>
      refine Or.inr ⟨base, rfl, ?_⟩
      cases hb : backend { index := es.index, ignoreUnavailable := true,
                           query := base.Must [rangeClause offset length] } with
      | error msg =>
        rw [(Slice_of_error unmarshal backend es base offset length data msg hq hb).1] at hm
        cases hm
      | panicked msg => exact Or.inl ⟨msg, rfl⟩
      | ok result =>
        refine Or.inr ⟨result, rfl, ?_⟩
        cases data with
        | other t => exact Or.inl ⟨t, rfl⟩
        | slicePtr target =>
          cases target with
          | none => exact Or.inr (Or.inl rfl)
          | some records =>
            cases hh : result.Hits with
            | none => exact Or.inr (Or.inr rfl)
            | some hits =>
              rw [good base result hits records hq hb hh rfl] at hm
              cases hm

/-- Witness for C10 as amended: a failed search with a destination of another type returns
nil, the same destination after a successful search is the panic, and a pointer to a slice
after a successful search returns nil. -/
theorem Slice_never_errors_witness :
    freshAdapter.query = some NewBoolQuery ∧
    (Slice sampleUnmarshal (failingBackend "down") freshAdapter 0 10 (.other "string")).outcome =
      .returned none ∧
    (Slice sampleUnmarshal (constantBackend (responseOf ["1"])) freshAdapter 0 10
        (.slicePtr (some []))).outcome = .returned none ∧
    (∃ m : String,
      (Slice sampleUnmarshal (constantBackend (responseOf ["1"])) freshAdapter 0 10
        (.other "string")).outcome = .panicked m) ∧
    (Slice sampleUnmarshal (panickingBackend "nil client") freshAdapter 0 10
        (.slicePtr (some []))).outcome = .panicked "nil client" ∧
    ((Slice sampleUnmarshal (failingBackend "down") nilQueryAdapter 0 10
        (.slicePtr (some []))).request = none ∧
      ∃ m : String,
        (Slice sampleUnmarshal (failingBackend "down") nilQueryAdapter 0 10
          (.slicePtr (some []))).outcome = .panicked m) :=
  ⟨rfl,
    ((Slice_never_errors sampleUnmarshal (failingBackend "down") freshAdapter 0 10
      (.other "string")).2.2.1 NewBoolQuery rfl).1 "down" rfl,
    (((Slice_never_errors sampleUnmarshal (constantBackend (responseOf ["1"])) freshAdapter 0 10
      (.slicePtr (some []))).2.2.1 NewBoolQuery rfl).2.2 (responseOf ["1"]) rfl).1
      ⟨{ TotalHits := some { Value := 1, Relation := "eq" }, Hits := [{ Source := "1" }] },
        [], rfl, rfl⟩,
    (((Slice_never_errors sampleUnmarshal (constantBackend (responseOf ["1"])) freshAdapter 0 10
      (.other "string")).2.2.1 NewBoolQuery rfl).2.2 (responseOf ["1"]) rfl).2
      (Or.inl ⟨"string", rfl⟩),
    ((Slice_never_errors sampleUnmarshal (panickingBackend "nil client") freshAdapter 0 10
      (.slicePtr (some []))).2.2.1 NewBoolQuery rfl).2.1 "nil client" rfl,
    (Slice_never_errors sampleUnmarshal (failingBackend "down") nilQueryAdapter 0 10
      (.slicePtr (some []))).2.1 rfl⟩

/-- C10 as stated fails, twice.  A destination of the asserted type `*[]interface{}` that
is a nil pointer passes the type assertion, and `Slice` panics at the dereference of line 57
although the search succeeded and the hits object is present (here with no hit at all).  And
an adapter with a nil query panics at line 41 with no search sent at all, so a panic does not
require a successful search. -/
theorem Slice_panics_on_nil_pointers :
    (constantBackend (responseOf [])
        { index := freshAdapter.index, ignoreUnavailable := true,
          query := NewBoolQuery.Must [rangeClause 0 10] } = .ok (responseOf []) ∧
      (responseOf []).Hits =
        some { TotalHits := some { Value := 0, Relation := "eq" }, Hits := [] } ∧
      (Slice sampleUnmarshal (constantBackend (responseOf [])) freshAdapter 0 10
          (.slicePtr none)).outcome = .panicked "nil pointer dereference" ∧
      (Slice sampleUnmarshal (constantBackend (responseOf [])) freshAdapter 0 10
          (.slicePtr none)).outcome ≠ .returned none) ∧
    (nilQueryAdapter.query = none ∧
      (Slice sampleUnmarshal (constantBackend (responseOf [])) nilQueryAdapter 0 10
          (.slicePtr (some []))).request = none ∧
      (Slice sampleUnmarshal (constantBackend (responseOf [])) nilQueryAdapter 0 10
          (.slicePtr (some []))).outcome = .panicked "nil pointer dereference") := by
  refine ⟨⟨rfl, rfl, rfl, ?_⟩, rfl, rfl, rfl⟩
  decide

end Skeleton
